import Mathlib

/-!
Verification of the lead lifecycle and deduplication engine of a
real-estate CRM backend (`app/routers/leads.py`, `app/routers/logs.py`,
`app/schemas.py`, `app/models/tables.py`).

The three request handlers are embedded as pure functions over an explicit
store state `DB` (lists standing for the `users`, `listings`,
`property_queries`, `call_logs` tables).  Errors are `Except (Nat × String)`
mirroring `HTTPException(status_code, detail)`; a failing handler performs a
rollback in the source, so an `.error` result leaves the store unchanged
(made explicit through `applyEvent`).  UUID columns are modelled as `Nat`
ids drawn from a fresh-id counter, `Date` columns as `Nat`.
-/

namespace CRM

/-- A row of the `users` table (a canonical lead), `app/models/tables.py`. -/
structure Lead where
  user_id : Nat
  phone : String
  name : Option String
  email : Option String
  lead_source : Option String
  lead_status : String
  lead_temperature : String
  last_contact_date : Option Nat
  next_action_date : Option Nat
  deriving Repr, DecidableEq

/-- A row of the `listings` table (only the columns the lead engine reads). -/
structure Listing where
  listing_id : Nat
  title : String
  brochure_url : Option String
  deriving Repr, DecidableEq

/-- A row of the `property_queries` table (self-serve interaction record). -/
structure PropertyQuery where
  query_id : Nat
  phone : String
  user_id : Nat
  name : Option String
  budget : Option String
  property_type : Option String
  user_type : Option String
  source : Option String
  message : Option String
  property_name : Option String
  listing_id : Option Nat
  query_status : String
  deriving Repr, DecidableEq

/-- A row of the `call_logs` table (staff activity record). -/
structure CallLog where
  call_id : Nat
  phone : String
  user_id : Nat
  caller_id : Nat
  interaction_type : String
  notes : String
  next_action : Option String
  next_follow_up_date : Option Nat
  site_visit_status : Option String
  contact_date : Nat
  deriving Repr, DecidableEq

/-- The store state: the four tables plus a fresh-id counter standing for
the uuid generator. -/
structure DB where
  users : List Lead
  listings : List Listing
  queries : List PropertyQuery
  call_logs : List CallLog
  next_id : Nat
  deriving Repr, DecidableEq

/-- Request body of `POST /brochure` (`schemas.BrochureRequest`). -/
structure BrochureRequest where
  name : String
  phone : String
  listing_id : Nat
  email : Option String
  deriving Repr, DecidableEq

/-- Request body of `POST /query` (`schemas.QueryCreate`). -/
structure QueryCreate where
  name : String
  phone : String
  query_source : String
  listing_id : Option Nat
  email : Option String
  message : Option String
  budget : Option String
  property_type : Option String
  user_type : Option String
  deriving Repr, DecidableEq

/-- Request body of `POST /logs` (`schemas.CallLogCreate`). -/
structure CallLogCreate where
  phone : String
  interaction_type : String
  notes : String
  next_action : Option String
  next_follow_up_date : Option Nat
  site_visit_status : Option String
  deriving Repr, DecidableEq

/-- Response body `schemas.QueryResponse`. -/
structure QueryResponse where
  success : Bool
  message : String
  brochure_url : Option String
  deriving Repr, DecidableEq

/-- Embeds `db.query(Listing).filter(Listing.listing_id == lid).first()`. -/
def findListing (db : DB) (lid : Nat) : Option Listing :=
  db.listings.find? (fun l => l.listing_id == lid)

/-- Embeds `db.query(User).filter(User.phone == p).first()`. -/
def findUserByPhone (users : List Lead) (p : String) : Option Lead :=
  users.find? (fun u => u.phone == p)

/-- In-place mutation of one ORM row: every listed row whose id matches is
replaced by its update. -/
def updateUser (users : List Lead) (id : Nat) (f : Lead → Lead) : List Lead :=
  users.map (fun u => if u.user_id == id then f u else u)

/-- Embeds `if request.name and request.name != user.name: user.name = request.name`
(shared by both `download_brochure` and `create_query`). -/
def mergeName (n : String) (u : Lead) : Lead :=
  if n ≠ "" ∧ some n ≠ u.name then { u with name := some n } else u

/-- Embeds `if request.email and request.email != user.email: user.email = request.email`
(shared by both `download_brochure` and `create_query`). -/
def mergeEmail (e? : Option String) (u : Lead) : Lead :=
  match e? with
  | some e => if e ≠ "" ∧ some e ≠ u.email then { u with email := some e } else u
  | none => u

/-- The existing-lead branch of `download_brochure` (leads.py lines 44-54):
merge name/email, force temperature Hot, advance a New lead to Interested. -/
def brochureMerge (req : BrochureRequest) (u : Lead) : Lead :=
  let u1 := mergeEmail req.email (mergeName req.name u)
  { u1 with
    lead_temperature := "Hot"
    lead_status := if u1.lead_status = "New" then "Interested" else u1.lead_status }

/-- The existing-lead branch of `create_query` (leads.py lines 121-125):
merge name/email only. -/
def queryMerge (qd : QueryCreate) (u : Lead) : Lead :=
  mergeEmail qd.email (mergeName qd.name u)

/-- The `tables.User(...)` constructor call of the not-found branch of
`download_brochure` (leads.py lines 57-64). -/
def brochureNewLead (req : BrochureRequest) (nid : Nat) : Lead :=
  { user_id := nid, phone := req.phone, name := some req.name
    email := req.email, lead_source := some "Brochure Download"
    lead_status := "New", lead_temperature := "Hot"
    last_contact_date := none, next_action_date := none }

/-- The `tables.PropertyQuery(...)` constructor call of `download_brochure`
(leads.py lines 69-77). -/
def brochureQueryRow (req : BrochureRequest) (title : String) (uid qid : Nat) :
    PropertyQuery :=
  { query_id := qid, phone := req.phone, user_id := uid
    name := some req.name, budget := none, property_type := none
    user_type := none, source := some "Brochure Download", message := none
    property_name := some title, listing_id := some req.listing_id
    query_status := "New" }

/-- The success response of `download_brochure` (leads.py lines 85-89). -/
def brochureResponse (url : String) : QueryResponse :=
  { success := true, message := "Brochure sent successfully."
    brochure_url := some url }

/-- Handler `download_brochure` (leads.py lines 25-105): validate listing and
brochure availability, find-or-create the lead by phone, append one
`PropertyQuery` row, return the brochure url.  `if not listing.brochure_url`
treats both NULL and the empty string as unavailable.  The appended row
references the listing just validated to exist in the same unchanged
listings table, so the `property_queries.listing_id` foreign key holds at
commit on this path. -/
def download_brochure (req : BrochureRequest) (db : DB) :
    Except (Nat × String) (DB × QueryResponse) :=
  match findListing db req.listing_id with
  | none => .error (404, "Listing not found")
  | some listing =>
    match listing.brochure_url with
    | none => .error (404, "No brochure available for this property")
    | some url =>
      if url = "" then .error (404, "No brochure available for this property")
      else
        match findUserByPhone db.users req.phone with
        | some u =>
          .ok ({ db with
                 users := updateUser db.users u.user_id (brochureMerge req)
                 queries :=
                   db.queries ++ [brochureQueryRow req listing.title u.user_id db.next_id]
                 next_id := db.next_id + 1 },
               brochureResponse url)
        | none =>
          .ok ({ db with
                 users := db.users ++ [brochureNewLead req db.next_id]
                 queries :=
                   db.queries ++ [brochureQueryRow req listing.title db.next_id (db.next_id + 1)]
                 next_id := db.next_id + 2 },
               brochureResponse url)

/-- The `tables.User(...)` constructor call of the not-found branch of
`create_query` (leads.py lines 127-134). -/
def queryNewLead (qd : QueryCreate) (nid : Nat) : Lead :=
  { user_id := nid, phone := qd.phone, name := some qd.name
    email := qd.email, lead_source := some qd.query_source
    lead_status := "New", lead_temperature := "Warm"
    last_contact_date := none, next_action_date := none }

/-- Step B of `create_query` (leads.py lines 138-145): resolve the listing
title, with sentinel "General Inquiry" when no listing is referenced or the
referenced listing does not exist. -/
def resolveListingTitle (db : DB) (lid? : Option Nat) : String :=
  match lid? with
  | some lid =>
    match findListing db lid with
    | some l => l.title
    | none => "General Inquiry"
  | none => "General Inquiry"

/-- The `tables.PropertyQuery(...)` constructor call of `create_query`
(leads.py lines 148-160). -/
def queryQueryRow (qd : QueryCreate) (title : String) (uid qid : Nat) :
    PropertyQuery :=
  { query_id := qid, phone := qd.phone, user_id := uid
    name := some qd.name, budget := qd.budget, property_type := qd.property_type
    user_type := qd.user_type, source := some qd.query_source, message := qd.message
    property_name := some title, listing_id := qd.listing_id
    query_status := "New" }

/-- The success response of `create_query` (leads.py lines 167-171). -/
def queryResponseOk : QueryResponse :=
  { success := true, message := "Thank you! We will contact you soon."
    brochure_url := none }

/-- Commit-time check of the `property_queries.listing_id` foreign key
(tables.py line 85, `ForeignKey("listings.listing_id")`): an interaction
row may carry a listing reference only if that listing exists.  A dangling
reference makes `db.commit()` raise IntegrityError. -/
def listingFKOk (db : DB) (lid? : Option Nat) : Bool :=
  match lid? with
  | some lid => (findListing db lid).isSome
  | none => true

/-- Handler `create_query` (leads.py lines 113-187): find-or-create the lead by
phone (merge name/email only), resolve the listing title with sentinel
"General Inquiry" (an unknown listing_id raises no NotFoundError in the
handler), append one `PropertyQuery` row, then commit.  The commit enforces
the `property_queries.listing_id` foreign key: a dangling listing reference
raises IntegrityError, which the handler catches, rolls back and converts
to a 409 "Duplicate entry" (leads.py lines 176-179). -/
def create_query (qd : QueryCreate) (db : DB) :
    Except (Nat × String) (DB × QueryResponse) :=
  match findUserByPhone db.users qd.phone with
  | some u =>
    if listingFKOk db qd.listing_id then
      .ok ({ db with
             users := updateUser db.users u.user_id (queryMerge qd)
             queries :=
               db.queries ++
                 [queryQueryRow qd (resolveListingTitle db qd.listing_id) u.user_id db.next_id]
             next_id := db.next_id + 1 },
           queryResponseOk)
    else .error (409, "Duplicate entry")
  | none =>
    if listingFKOk db qd.listing_id then
      .ok ({ db with
             users := db.users ++ [queryNewLead qd db.next_id]
             queries :=
               db.queries ++
                 [queryQueryRow qd (resolveListingTitle db qd.listing_id) db.next_id
                    (db.next_id + 1)]
             next_id := db.next_id + 2 },
           queryResponseOk)
    else .error (409, "Duplicate entry")

/-- The lead-profile automation of `create_log` (logs.py lines 42-54):
touch `last_contact_date`, copy a supplied follow-up date into
`next_action_date`, and advance a New lead to Site Visit Scheduled or
Contacted depending on the interaction type. -/
def logUpdate (ld : CallLogCreate) (today : Nat) (u : Lead) : Lead :=
  let u1 := { u with last_contact_date := some today }
  let u2 :=
    match ld.next_follow_up_date with
    | some d => { u1 with next_action_date := some d }
    | none => u1
  if ld.interaction_type = "Site Visit" ∧ u2.lead_status = "New" then
    { u2 with lead_status := "Site Visit Scheduled" }
  else if u2.lead_status = "New" then
    { u2 with lead_status := "Contacted" }
  else u2

/-- The `tables.CallLog(...)` constructor call of `create_log` (logs.py
lines 30-39); `caller_id` is the authenticated staff member's id. -/
def callLogRow (ld : CallLogCreate) (staff_id : Nat) (today : Nat) (uid cid : Nat) :
    CallLog :=
  { call_id := cid, phone := ld.phone, user_id := uid
    caller_id := staff_id, interaction_type := ld.interaction_type
    notes := ld.notes, next_action := ld.next_action
    next_follow_up_date := ld.next_follow_up_date
    site_visit_status := ld.site_visit_status, contact_date := today }

/-- Handler `create_log` (logs.py lines 19-59): require an existing lead for the
phone (404 otherwise), append one `CallLog` row carrying the authenticated
staff member's id, and run the lead-profile automation. -/
def create_log (ld : CallLogCreate) (staff_id : Nat) (today : Nat) (db : DB) :
    Except (Nat × String) (DB × CallLog) :=
  match findUserByPhone db.users ld.phone with
  | none => .error (404, "User with this phone not found. Create lead first.")
  | some u =>
    .ok ({ db with
           users := updateUser db.users u.user_id (logUpdate ld today)
           call_logs := db.call_logs ++ [callLogRow ld staff_id today u.user_id db.next_id]
           next_id := db.next_id + 1 },
         callLogRow ld staff_id today u.user_id db.next_id)

/-- One inbound contact event: the two self-serve paths and the staff path. -/
inductive Event where
  | brochure (req : BrochureRequest)
  | query (qd : QueryCreate)
  | activity (ld : CallLogCreate) (staff_id : Nat) (today : Nat)
  deriving Repr, DecidableEq

/-- The phone the event carries. -/
def Event.phone : Event → String
  | .brochure req => req.phone
  | .query qd => qd.phone
  | .activity ld _ _ => ld.phone

/-- Whether the event comes through a public self-serve path
(BrochureRequested or QuerySubmitted). -/
def Event.selfServe : Event → Bool
  | .brochure _ => true
  | .query _ => true
  | .activity _ _ _ => false

/-- Run one event against the store, keeping only the resulting store. -/
def runEvent : Event → DB → Except (Nat × String) DB
  | .brochure req, db => (download_brochure req db).map Prod.fst
  | .query qd, db => (create_query qd db).map Prod.fst
  | .activity ld sid today, db => (create_log ld sid today db).map Prod.fst

/-- Commit-or-rollback semantics of the handlers' try/except blocks: a
failing handler calls `db.rollback()`, so the store is unchanged. -/
def applyEvent (e : Event) (db : DB) : DB :=
  match runEvent e db with
  | .ok db' => db'
  | .error _ => db

/-- Cold < Warm < Hot (any other string ranks lowest). -/
def tempRank (t : String) : Nat :=
  if t = "Hot" then 2 else if t = "Warm" then 1 else 0

/-- Cleaning step of `ValidatorMixin.validate_phone` (schemas.py line 53):
the three `replace(x, "")` calls each delete every occurrence of one
single character (space, hyphen, plus), modelled as three successive
filters over the string's characters. -/
def clean_phone (v : String) : String :=
  String.mk (((v.data.filter (fun c => c != ' ')).filter (fun c => c != '-')).filter
    (fun c => c != '+'))

/-- Python `str.isdigit`: false on the empty string, else true iff every
character is a digit. -/
def pyIsDigit (s : String) : Bool :=
  !s.data.isEmpty && s.data.all Char.isDigit

/-- Validator `ValidatorMixin.validate_phone` (schemas.py lines 49-58), the phone
validator pydantic runs on `BrochureRequest` and `QueryCreate` before the
handler executes. -/
def validate_phone (v : String) : Except String String :=
  let c := clean_phone v
  if ¬ pyIsDigit c then .error "Phone number must contain only digits"
  else if c.length < 10 ∨ 15 < c.length then
    .error "Phone number must be between 10 and 15 digits"
  else .ok c

/-! ### Frame lemmas for the per-lead update functions -/

theorem mergeName_phone (n : String) (u : Lead) : (mergeName n u).phone = u.phone := by
  unfold mergeName; split <;> rfl

theorem mergeName_user_id (n : String) (u : Lead) : (mergeName n u).user_id = u.user_id := by
  unfold mergeName; split <;> rfl

theorem mergeName_lead_source (n : String) (u : Lead) :
    (mergeName n u).lead_source = u.lead_source := by
  unfold mergeName; split <;> rfl

theorem mergeName_lead_status (n : String) (u : Lead) :
    (mergeName n u).lead_status = u.lead_status := by
  unfold mergeName; split <;> rfl

theorem mergeName_lead_temperature (n : String) (u : Lead) :
    (mergeName n u).lead_temperature = u.lead_temperature := by
  unfold mergeName; split <;> rfl

theorem mergeEmail_phone (e? : Option String) (u : Lead) : (mergeEmail e? u).phone = u.phone := by
  unfold mergeEmail
  cases e? with
  | none => rfl
  | some e => dsimp only; split <;> rfl

theorem mergeEmail_user_id (e? : Option String) (u : Lead) :
    (mergeEmail e? u).user_id = u.user_id := by
  unfold mergeEmail
  cases e? with
  | none => rfl
  | some e => dsimp only; split <;> rfl

theorem mergeEmail_lead_source (e? : Option String) (u : Lead) :
    (mergeEmail e? u).lead_source = u.lead_source := by
  unfold mergeEmail
  cases e? with
  | none => rfl
  | some e => dsimp only; split <;> rfl

theorem mergeEmail_lead_status (e? : Option String) (u : Lead) :
    (mergeEmail e? u).lead_status = u.lead_status := by
  unfold mergeEmail
  cases e? with
  | none => rfl
  | some e => dsimp only; split <;> rfl

theorem mergeEmail_lead_temperature (e? : Option String) (u : Lead) :
    (mergeEmail e? u).lead_temperature = u.lead_temperature := by
  unfold mergeEmail
  cases e? with
  | none => rfl
  | some e => dsimp only; split <;> rfl

theorem queryMerge_phone (qd : QueryCreate) (u : Lead) : (queryMerge qd u).phone = u.phone := by
  unfold queryMerge; rw [mergeEmail_phone, mergeName_phone]

theorem queryMerge_user_id (qd : QueryCreate) (u : Lead) :
    (queryMerge qd u).user_id = u.user_id := by
  unfold queryMerge; rw [mergeEmail_user_id, mergeName_user_id]

theorem queryMerge_lead_source (qd : QueryCreate) (u : Lead) :
    (queryMerge qd u).lead_source = u.lead_source := by
  unfold queryMerge; rw [mergeEmail_lead_source, mergeName_lead_source]

theorem queryMerge_lead_status (qd : QueryCreate) (u : Lead) :
    (queryMerge qd u).lead_status = u.lead_status := by
  unfold queryMerge; rw [mergeEmail_lead_status, mergeName_lead_status]

theorem queryMerge_lead_temperature (qd : QueryCreate) (u : Lead) :
    (queryMerge qd u).lead_temperature = u.lead_temperature := by
  unfold queryMerge; rw [mergeEmail_lead_temperature, mergeName_lead_temperature]

theorem brochureMerge_phone (req : BrochureRequest) (u : Lead) :
    (brochureMerge req u).phone = u.phone := by
  unfold brochureMerge
  show (mergeEmail req.email (mergeName req.name u)).phone = u.phone
  rw [mergeEmail_phone, mergeName_phone]

theorem brochureMerge_user_id (req : BrochureRequest) (u : Lead) :
    (brochureMerge req u).user_id = u.user_id := by
  unfold brochureMerge
  show (mergeEmail req.email (mergeName req.name u)).user_id = u.user_id
  rw [mergeEmail_user_id, mergeName_user_id]

theorem brochureMerge_lead_source (req : BrochureRequest) (u : Lead) :
    (brochureMerge req u).lead_source = u.lead_source := by
  unfold brochureMerge
  show (mergeEmail req.email (mergeName req.name u)).lead_source = u.lead_source
  rw [mergeEmail_lead_source, mergeName_lead_source]

theorem brochureMerge_lead_temperature (req : BrochureRequest) (u : Lead) :
    (brochureMerge req u).lead_temperature = "Hot" := rfl

theorem brochureMerge_lead_status (req : BrochureRequest) (u : Lead) :
    (brochureMerge req u).lead_status =
      if u.lead_status = "New" then "Interested" else u.lead_status := by
  unfold brochureMerge
  show (if (mergeEmail req.email (mergeName req.name u)).lead_status = "New" then "Interested"
        else (mergeEmail req.email (mergeName req.name u)).lead_status) =
      if u.lead_status = "New" then "Interested" else u.lead_status
  rw [mergeEmail_lead_status, mergeName_lead_status]

theorem logUpdate_phone (ld : CallLogCreate) (today : Nat) (u : Lead) :
    (logUpdate ld today u).phone = u.phone := by
  unfold logUpdate
  cases ld.next_follow_up_date <;> dsimp only <;> split_ifs <;> rfl

theorem logUpdate_user_id (ld : CallLogCreate) (today : Nat) (u : Lead) :
    (logUpdate ld today u).user_id = u.user_id := by
  unfold logUpdate
  cases ld.next_follow_up_date <;> dsimp only <;> split_ifs <;> rfl

theorem logUpdate_lead_source (ld : CallLogCreate) (today : Nat) (u : Lead) :
    (logUpdate ld today u).lead_source = u.lead_source := by
  unfold logUpdate
  cases ld.next_follow_up_date <;> dsimp only <;> split_ifs <;> rfl

theorem logUpdate_lead_temperature (ld : CallLogCreate) (today : Nat) (u : Lead) :
    (logUpdate ld today u).lead_temperature = u.lead_temperature := by
  unfold logUpdate
  cases ld.next_follow_up_date <;> dsimp only <;> split_ifs <;> rfl

theorem logUpdate_last_contact_date (ld : CallLogCreate) (today : Nat) (u : Lead) :
    (logUpdate ld today u).last_contact_date = some today := by
  unfold logUpdate
  cases ld.next_follow_up_date <;> dsimp only <;> split_ifs <;> rfl

theorem logUpdate_next_action_date (ld : CallLogCreate) (today : Nat) (u : Lead) :
    (logUpdate ld today u).next_action_date =
      (match ld.next_follow_up_date with
       | some d => some d
       | none => u.next_action_date) := by
  unfold logUpdate
  cases ld.next_follow_up_date <;> dsimp only <;> split_ifs <;> rfl

theorem logUpdate_lead_status (ld : CallLogCreate) (today : Nat) (u : Lead) :
    (logUpdate ld today u).lead_status =
      (if ld.interaction_type = "Site Visit" ∧ u.lead_status = "New" then "Site Visit Scheduled"
       else if u.lead_status = "New" then "Contacted" else u.lead_status) := by
  unfold logUpdate
  cases ld.next_follow_up_date <;> dsimp only <;> split_ifs <;> rfl

/-! ### Lemmas about the store primitives -/

theorem updateUser_length (users : List Lead) (id : Nat) (f : Lead → Lead) :
    (updateUser users id f).length = users.length := by
  unfold updateUser; exact List.length_map _ _

theorem updateUser_get (users : List Lead) (id : Nat) (f : Lead → Lead) (i : Nat)
    (hi : i < users.length) (hi' : i < (updateUser users id f).length) :
    (updateUser users id f).get ⟨i, hi'⟩ =
      (if (users.get ⟨i, hi⟩).user_id == id then f (users.get ⟨i, hi⟩)
       else users.get ⟨i, hi⟩) := by
  simp [updateUser]

theorem append_get (users : List Lead) (w : Lead) (i : Nat)
    (hi : i < users.length) (hi' : i < (users ++ [w]).length) :
    (users ++ [w]).get ⟨i, hi'⟩ = users.get ⟨i, hi⟩ := by
  simp [List.getElem_append, hi]

theorem findUser_updateUser (users : List Lead) (id : Nat) (f : Lead → Lead) (p : String)
    (hf : ∀ u, (f u).phone = u.phone) :
    findUserByPhone (updateUser users id f) p =
      (findUserByPhone users p).map (fun u => if u.user_id == id then f u else u) := by
  unfold findUserByPhone updateUser
  rw [List.find?_map]
  have hpred : ((fun u : Lead => u.phone == p) ∘ fun u => if u.user_id == id then f u else u) =
      fun u : Lead => u.phone == p := by
    funext u
    by_cases h : u.user_id = id <;> simp [h, hf]
  rw [hpred]

theorem findUser_append_single (users : List Lead) (w : Lead) (p : String) :
    findUserByPhone (users ++ [w]) p =
      (findUserByPhone users p).or (if w.phone == p then some w else none) := by
  unfold findUserByPhone
  rw [List.find?_append]
  congr 1
  by_cases h : (w.phone == p) = true
  · simp [List.find?_cons_of_pos, h]
  · simp only [Bool.not_eq_true] at h
    simp [List.find?_cons_of_neg, h]

theorem tempRank_le_two (t : String) : tempRank t ≤ 2 := by
  unfold tempRank; split <;> [skip; split] <;> omega

/-- The frame/monotonicity contract every per-lead update of the three
handlers satisfies: phone and id stable, first-touch `lead_source` stable,
temperature never downgraded, status frozen unless currently New. -/
def MergeOk (g : Lead → Lead) : Prop :=
  ∀ u, (g u).phone = u.phone ∧ (g u).user_id = u.user_id ∧
    (g u).lead_source = u.lead_source ∧
    tempRank u.lead_temperature ≤ tempRank (g u).lead_temperature ∧
    (u.lead_status ≠ "New" → (g u).lead_status = u.lead_status)

theorem mergeOk_brochureMerge (req : BrochureRequest) : MergeOk (brochureMerge req) := by
  intro u
  refine ⟨brochureMerge_phone req u, brochureMerge_user_id req u,
    brochureMerge_lead_source req u, ?_, ?_⟩
  · rw [brochureMerge_lead_temperature]
    have h2 : tempRank "Hot" = 2 := by decide
    rw [h2]; exact tempRank_le_two _
  · intro hne
    rw [brochureMerge_lead_status]
    simp [hne]

theorem mergeOk_queryMerge (qd : QueryCreate) : MergeOk (queryMerge qd) := by
  intro u
  refine ⟨queryMerge_phone qd u, queryMerge_user_id qd u, queryMerge_lead_source qd u, ?_,
    fun _ => queryMerge_lead_status qd u⟩
  rw [queryMerge_lead_temperature]

theorem mergeOk_logUpdate (ld : CallLogCreate) (today : Nat) : MergeOk (logUpdate ld today) := by
  intro u
  refine ⟨logUpdate_phone ld today u, logUpdate_user_id ld today u,
    logUpdate_lead_source ld today u, ?_, ?_⟩
  · rw [logUpdate_lead_temperature]
  · intro hne
    rw [logUpdate_lead_status]
    simp [hne]

/-- Inversion of a successful event: the users table is either rewritten in
place through a `MergeOk` update, or extended by exactly one new row. -/
theorem runEvent_ok_users (e : Event) (db db' : DB) (h : runEvent e db = Except.ok db') :
    (∃ id g, MergeOk g ∧ db'.users = updateUser db.users id g) ∨
    (∃ w, db'.users = db.users ++ [w]) := by
  cases e with
  | brochure req =>
    simp only [runEvent] at h
    unfold download_brochure at h
    split at h
    · simp [Except.map] at h
    · split at h
      · simp [Except.map] at h
      · split at h
        · simp [Except.map] at h
        · split at h
          · rename_i u heq
            simp only [Except.map] at h
            cases h
            exact Or.inl ⟨u.user_id, brochureMerge req, mergeOk_brochureMerge req, rfl⟩
          · simp only [Except.map] at h
            cases h
            exact Or.inr ⟨brochureNewLead req db.next_id, rfl⟩
  | query qd =>
    simp only [runEvent] at h
    unfold create_query at h
    split at h
    · rename_i u heq
      split at h
      · simp only [Except.map] at h
        cases h
        exact Or.inl ⟨u.user_id, queryMerge qd, mergeOk_queryMerge qd, rfl⟩
      · simp [Except.map] at h
    · split at h
      · simp only [Except.map] at h
        cases h
        exact Or.inr ⟨queryNewLead qd db.next_id, rfl⟩
      · simp [Except.map] at h
  | activity ld sid today =>
    simp only [runEvent] at h
    unfold create_log at h
    split at h
    · simp [Except.map] at h
    · rename_i u heq
      simp only [Except.map] at h
      cases h
      exact Or.inl ⟨u.user_id, logUpdate ld today, mergeOk_logUpdate ld today, rfl⟩

/-- Inversion of a successful self-serve event: exactly one `PropertyQuery`
row is appended, and it links the lead resolved by the event's phone — the
merged existing lead, or the newly created one. -/
theorem selfServe_ok_link (e : Event) (db db' : DB) (hs : e.selfServe = true)
    (h : runEvent e db = Except.ok db') :
    ∃ q, db'.queries = db.queries ++ [q] ∧
      ((∃ u, findUserByPhone db.users e.phone = some u ∧ q.user_id = u.user_id ∧
          ∃ g, (∀ x, (g x).phone = x.phone ∧ (g x).user_id = x.user_id) ∧
            db'.users = updateUser db.users u.user_id g) ∨
       (findUserByPhone db.users e.phone = none ∧
        ∃ w, w.phone = e.phone ∧ w.user_id = q.user_id ∧ db'.users = db.users ++ [w])) := by
  cases e with
  | brochure req =>
    simp only [runEvent] at h
    unfold download_brochure at h
    split at h
    · simp [Except.map] at h
    · rename_i listing hL
      split at h
      · simp [Except.map] at h
      · split at h
        · simp [Except.map] at h
        · split at h
          · rename_i u heq
            simp only [Except.map] at h
            cases h
            refine ⟨brochureQueryRow req listing.title u.user_id db.next_id, rfl, Or.inl
              ⟨u, heq, rfl, brochureMerge req, ?_, rfl⟩⟩
            exact fun x => ⟨brochureMerge_phone req x, brochureMerge_user_id req x⟩
          · rename_i heq
            simp only [Except.map] at h
            cases h
            exact ⟨brochureQueryRow req listing.title db.next_id (db.next_id + 1), rfl,
              Or.inr ⟨heq, brochureNewLead req db.next_id, rfl, rfl, rfl⟩⟩
  | query qd =>
    simp only [runEvent] at h
    unfold create_query at h
    split at h
    · rename_i u heq
      split at h
      · simp only [Except.map] at h
        cases h
        refine ⟨queryQueryRow qd (resolveListingTitle db qd.listing_id) u.user_id db.next_id,
          rfl, Or.inl ⟨u, heq, rfl, queryMerge qd, ?_, rfl⟩⟩
        exact fun x => ⟨queryMerge_phone qd x, queryMerge_user_id qd x⟩
      · simp [Except.map] at h
    · rename_i heq
      split at h
      · simp only [Except.map] at h
        cases h
        exact ⟨queryQueryRow qd (resolveListingTitle db qd.listing_id) db.next_id
          (db.next_id + 1), rfl, Or.inr ⟨heq, queryNewLead qd db.next_id, rfl, rfl, rfl⟩⟩
      · simp [Except.map] at h
  | activity ld sid today =>
    simp [Event.selfServe] at hs

/-- C1.  Idempotent dedup by phone: running two successful self-serve
reconcile operations (brochure download or query submission) with the same
phone never creates two Lead rows — the second call adds no users row
beyond the first's, and the `PropertyQuery` interaction appended by the
second call links exactly the lead id linked by the first. -/
theorem reconcile_idempotent_dedup (e1 e2 : Event) (db db1 db2 : DB)
    (hs1 : e1.selfServe = true) (hs2 : e2.selfServe = true)
    (hp : e2.phone = e1.phone)
    (h1 : runEvent e1 db = Except.ok db1) (h2 : runEvent e2 db1 = Except.ok db2) :
    db2.users.length = db1.users.length ∧
    ∃ q1 q2, db1.queries = db.queries ++ [q1] ∧ db2.queries = db1.queries ++ [q2] ∧
      q2.user_id = q1.user_id := by
  obtain ⟨q1, hq1, hcase1⟩ := selfServe_ok_link e1 db db1 hs1 h1
  obtain ⟨q2, hq2, hcase2⟩ := selfServe_ok_link e2 db1 db2 hs2 h2
  rcases hcase1 with ⟨u, hfind, hqu, g, hg, husers⟩ | ⟨hnone, w, hwp, hwid, husers⟩
  · have hfind1 : findUserByPhone db1.users e2.phone = some (g u) := by
      rw [hp, husers, findUser_updateUser _ _ _ _ (fun x => (hg x).1), hfind]
      simp
    rcases hcase2 with ⟨u2, hfind2, hqu2, g2, hg2, husers2⟩ | ⟨hnone2, _⟩
    · rw [hfind1] at hfind2
      cases hfind2
      refine ⟨?_, q1, q2, hq1, hq2, ?_⟩
      · rw [husers2, updateUser_length]
      · rw [hqu2, (hg u).2, hqu]
    · rw [hfind1] at hnone2
      cases hnone2
  · have hfind1 : findUserByPhone db1.users e2.phone = some w := by
      rw [hp, husers, findUser_append_single, hnone, hwp]
      simp
    rcases hcase2 with ⟨u2, hfind2, hqu2, g2, hg2, husers2⟩ | ⟨hnone2, _⟩
    · rw [hfind1] at hfind2
      cases hfind2
      refine ⟨?_, q1, q2, hq1, hq2, ?_⟩
      · rw [husers2, updateUser_length]
      · rw [hqu2, hwid]
    · rw [hfind1] at hnone2
      cases hnone2

/-- C2.  First-touch immutability of `lead_source`: no successful operation
(brochure download, query submission — even with a different source value —
or staff activity log) changes the `lead_source` of any lead already in the
store; it keeps the value set at creation. -/
theorem lead_source_first_touch_immutable (e : Event) (db db' : DB)
    (h : runEvent e db = Except.ok db') (i : Nat)
    (hi : i < db.users.length) (hi' : i < db'.users.length) :
    (db'.users.get ⟨i, hi'⟩).lead_source = (db.users.get ⟨i, hi⟩).lead_source := by
  simp only [List.get_eq_getElem]
  rcases runEvent_ok_users e db db' h with ⟨id, g, hg, husers⟩ | ⟨w, husers⟩
  · simp only [husers, updateUser, List.getElem_map]
    split
    · exact (hg _).2.2.1
    · rfl
  · simp only [husers]
    simp [List.getElem_append, hi]

/-- C3.  Status advance-only-from-New: for any lead already in the store
whose `lead_status` is not New, a successful BrochureRequested or
QuerySubmitted event leaves its `lead_status` unchanged (in particular a
Converted lead stays Converted). -/
theorem status_frozen_outside_new (e : Event) (db db' : DB)
    (hs : e.selfServe = true)
    (h : runEvent e db = Except.ok db') (i : Nat)
    (hi : i < db.users.length) (hi' : i < db'.users.length)
    (hstat : (db.users.get ⟨i, hi⟩).lead_status ≠ "New") :
    (db'.users.get ⟨i, hi'⟩).lead_status = (db.users.get ⟨i, hi⟩).lead_status := by
  simp only [List.get_eq_getElem] at hstat ⊢
  rcases runEvent_ok_users e db db' h with ⟨id, g, hg, husers⟩ | ⟨w, husers⟩
  · simp only [husers, updateUser, List.getElem_map]
    split
    · exact (hg _).2.2.2.2 hstat
    · rfl
  · simp only [husers]
    simp [List.getElem_append, hi]

/-- C4.  Temperature monotonicity: under the order Cold < Warm < Hot, no
successful operation (brochure download, query submission, or staff
activity log) ever downgrades the `lead_temperature` of a lead already in
the store. -/
theorem temperature_monotone (e : Event) (db db' : DB)
    (h : runEvent e db = Except.ok db') (i : Nat)
    (hi : i < db.users.length) (hi' : i < db'.users.length) :
    tempRank (db.users.get ⟨i, hi⟩).lead_temperature ≤
      tempRank (db'.users.get ⟨i, hi'⟩).lead_temperature := by
  simp only [List.get_eq_getElem]
  rcases runEvent_ok_users e db db' h with ⟨id, g, hg, husers⟩ | ⟨w, husers⟩
  · simp only [husers, updateUser, List.getElem_map]
    split
    · exact (hg _).2.2.2.1
    · exact Nat.le_refl _
  · simp only [husers]
    simp [List.getElem_append, hi]

/-- A lead in status New with temperature Cold: representable in the store,
whose `lead_temperature` is a plain string column. -/
def coldLead : Lead :=
  { user_id := 1, phone := "9876543210", name := some "Asha", email := none
    lead_source := some "Website", lead_status := "New", lead_temperature := "Cold"
    last_contact_date := none, next_action_date := none }

def coldDB : DB :=
  { users := [coldLead], listings := [], queries := [], call_logs := [], next_id := 2 }

def coldQuery : QueryCreate :=
  { name := "Asha", phone := "9876543210", query_source := "Website", listing_id := none
    email := none, message := none, budget := none, property_type := none
    user_type := none }

/-- C5 (counterexample).  The claim says a QuerySubmitted event on an
existing lead in status New sets `lead_temperature` to Warm unless it is
already Hot — in particular that a Cold lead becomes Warm.  On the code a
Cold lead in status New stays Cold after a query submission: `create_query`
never touches temperature on the existing-lead branch. -/
theorem querySubmitted_warm_counterexample :
    coldLead.lead_status = "New" ∧ coldLead.lead_temperature = "Cold" ∧
    (applyEvent (Event.query coldQuery) coldDB).users.map Lead.lead_temperature = ["Cold"] ∧
    (applyEvent (Event.query coldQuery) coldDB).users.map Lead.lead_temperature ≠ ["Warm"] := by
  refine ⟨rfl, rfl, ?_, ?_⟩ <;> decide

/-- C5 (amended).  For every existing lead with `lead_status = New`, a
successful QuerySubmitted event (one whose commit satisfies the listing
foreign key) leaves `lead_status = New` and leaves `lead_temperature`
unchanged (the code-created temperatures are only Warm and Hot, for which
this coincides with "Warm unless already Hot"; a Cold lead stays Cold). -/
theorem querySubmitted_preserves_status_and_temperature (qd : QueryCreate) (db : DB)
    (u : Lead) (hu : findUserByPhone db.users qd.phone = some u)
    (hstat : u.lead_status = "New")
    (hfk : listingFKOk db qd.listing_id = true) :
    ∃ db' r, create_query qd db = Except.ok (db', r) ∧
      ∃ u2, findUserByPhone db'.users qd.phone = some u2 ∧
        u2.lead_status = "New" ∧ u2.lead_temperature = u.lead_temperature := by
  unfold create_query
  rw [hu]
  dsimp only
  rw [if_pos hfk]
  refine ⟨_, _, rfl, queryMerge qd u, ?_, ?_, queryMerge_lead_temperature qd u⟩
  · show findUserByPhone (updateUser db.users u.user_id (queryMerge qd)) qd.phone = _
    rw [findUser_updateUser _ _ _ _ (fun x => queryMerge_phone qd x), hu]
    simp
  · rw [queryMerge_lead_status, hstat]

/-- C6.  Activity-log precondition: a `create_log` call whose phone matches
no lead in the store fails with a 404 NotFoundError, and the store is left
entirely unchanged — no Interaction written, no lead created or modified. -/
theorem logActivity_unknown_phone_rejected (ld : CallLogCreate) (sid today : Nat) (db : DB)
    (h : findUserByPhone db.users ld.phone = none) :
    create_log ld sid today db =
      Except.error (404, "User with this phone not found. Create lead first.") ∧
    applyEvent (Event.activity ld sid today) db = db := by
  have herr : create_log ld sid today db =
      Except.error (404, "User with this phone not found. Create lead first.") := by
    unfold create_log
    rw [h]
  refine ⟨herr, ?_⟩
  show (match runEvent (Event.activity ld sid today) db with
        | .ok db' => db'
        | .error _ => db) = db
  have hrun : runEvent (Event.activity ld sid today) db =
      Except.error (404, "User with this phone not found. Create lead first.") := by
    simp only [runEvent, herr, Except.map]
  rw [hrun]

/-- C7.  Activity-log effects on an existing lead: one Interaction row is
appended carrying the authenticated staff member's id; the lead's
`last_contact_date` becomes today; a supplied follow-up date is copied into
`next_action_date`; and a lead in status New moves to "Site Visit
Scheduled" on a "Site Visit" interaction and to "Contacted" on any other
interaction type. -/
theorem logActivity_effects (ld : CallLogCreate) (sid today : Nat) (db : DB) (u : Lead)
    (hu : findUserByPhone db.users ld.phone = some u) :
    ∃ db' log, create_log ld sid today db = Except.ok (db', log) ∧
      db'.call_logs = db.call_logs ++ [log] ∧ log.caller_id = sid ∧
      ∃ u2, findUserByPhone db'.users ld.phone = some u2 ∧
        u2.last_contact_date = some today ∧
        u2.next_action_date = (match ld.next_follow_up_date with
          | some d => some d
          | none => u.next_action_date) ∧
        u2.lead_status = (if ld.interaction_type = "Site Visit" ∧ u.lead_status = "New"
          then "Site Visit Scheduled"
          else if u.lead_status = "New" then "Contacted" else u.lead_status) := by
  unfold create_log
  rw [hu]
  refine ⟨_, _, rfl, rfl, rfl, logUpdate ld today u, ?_,
    logUpdate_last_contact_date ld today u, logUpdate_next_action_date ld today u,
    logUpdate_lead_status ld today u⟩
  show findUserByPhone (updateUser db.users u.user_id (logUpdate ld today)) ld.phone = _
  rw [findUser_updateUser _ _ _ _ (fun x => logUpdate_phone ld today x), hu]
  simp

/-- C8.  Read-only failure of brochure requests on unavailable brochures:
when the listing is absent, or present with no (or an empty) brochure url,
`download_brochure` fails with a 404 NotFoundError and the store is left
entirely unchanged — the failing check happens before any write. -/
theorem brochure_unavailable_read_only_failure (req : BrochureRequest) (db : DB)
    (h : findListing db req.listing_id = none ∨
      ∃ l, findListing db req.listing_id = some l ∧
        (l.brochure_url = none ∨ l.brochure_url = some "")) :
    (∃ msg, download_brochure req db = Except.error (404, msg)) ∧
    applyEvent (Event.brochure req) db = db := by
  have herr : ∃ msg, download_brochure req db = Except.error (404, msg) := by
    rcases h with h | ⟨l, hl, hb | hb⟩
    · exact ⟨"Listing not found", by unfold download_brochure; rw [h]⟩
    · exact ⟨"No brochure available for this property", by
        unfold download_brochure; rw [hl]; dsimp only; rw [hb]⟩
    · exact ⟨"No brochure available for this property", by
        unfold download_brochure; rw [hl]; dsimp only; rw [hb]; simp⟩
  obtain ⟨msg, hmsg⟩ := herr
  refine ⟨⟨msg, hmsg⟩, ?_⟩
  show (match runEvent (Event.brochure req) db with
        | .ok db' => db'
        | .error _ => db) = db
  have hrun : runEvent (Event.brochure req) db = Except.error (404, msg) := by
    simp only [runEvent, hmsg, Except.map]
  rw [hrun]

/-- C9 (counterexample).  The claim says every input phone that is not a
digits-only string of 10-15 characters is rejected with a ValidationError
by all three public operations.  On the code: the validator first strips
spaces, hyphens and plus signs, so the non-digits-only input
"+91 98765-43210" is accepted (as "919876543210"); and the activity-log
request shape has no phone validator at all — a malformed phone reaches
the handler and fails with a 404 NotFoundError instead. -/
theorem phone_validation_counterexample :
    pyIsDigit "+91 98765-43210" = false ∧
    validate_phone "+91 98765-43210" = Except.ok "919876543210" ∧
    create_log { phone := "12ab", interaction_type := "Call", notes := "x"
                 next_action := none, next_follow_up_date := none
                 site_visit_status := none } 1 0
        { users := [], listings := [], queries := [], call_logs := [], next_id := 0 } =
      Except.error (404, "User with this phone not found. Create lead first.") := by
  refine ⟨by decide, by rfl, by rfl⟩

/-- C9 (amended).  Phone validation on the brochure and query request
shapes is by the cleaned phone: after stripping spaces, hyphens and plus
signs, `validate_phone` accepts exactly the digits-only strings of 10-15
characters, and the value that reaches the reconcile/merge logic is that
cleaned string.  (The activity-log path performs no phone validation; an
unknown phone there fails with NotFoundError, per the C6 theorem.) -/
theorem phone_validation_cleaned_characterization (v : String) :
    (∀ c, validate_phone v = Except.ok c → c = clean_phone v) ∧
    ((∃ c, validate_phone v = Except.ok c) ↔
      (pyIsDigit (clean_phone v) = true ∧ 10 ≤ (clean_phone v).length ∧
        (clean_phone v).length ≤ 15)) := by
  simp only [validate_phone]
  constructor
  · intro c hc
    split_ifs at hc
    simp at hc
    exact hc.symm
  · constructor
    · rintro ⟨c, hc⟩
      split_ifs at hc with h1 h2
      push_neg at h2
      exact ⟨h1, h2.1, h2.2⟩
    · rintro ⟨hd, h10, h15⟩
      refine ⟨clean_phone v, ?_⟩
      rw [if_neg (by simp [hd]), if_neg (by omega)]

/-- C10 (amended).  An unknown listing on the query path raises no
NotFoundError in the handler: the application logic resolves the property
name to the sentinel "General Inquiry" instead of rejecting.  The
operation nevertheless does not succeed: the appended interaction row
carries the dangling `listing_id`, so the commit violates the
`property_queries.listing_id` foreign key, is rolled back, and the call
fails with a 409 "Duplicate entry" — no Interaction is recorded and no
lead is created or modified. -/
theorem query_unknown_listing_fk_conflict (qd : QueryCreate) (lid : Nat) (db : DB)
    (hl : qd.listing_id = some lid) (hmiss : findListing db lid = none) :
    resolveListingTitle db qd.listing_id = "General Inquiry" ∧
    create_query qd db = Except.error (409, "Duplicate entry") ∧
    applyEvent (Event.query qd) db = db := by
  have htitle : resolveListingTitle db qd.listing_id = "General Inquiry" := by
    unfold resolveListingTitle
    rw [hl]
    dsimp only
    rw [hmiss]
  have hfk : listingFKOk db qd.listing_id = false := by
    unfold listingFKOk
    rw [hl]
    dsimp only
    rw [hmiss]
    rfl
  have herr : create_query qd db = Except.error (409, "Duplicate entry") := by
    unfold create_query
    cases hF : findUserByPhone db.users qd.phone <;> simp [hfk]
  refine ⟨htitle, herr, ?_⟩
  show (match runEvent (Event.query qd) db with
        | .ok db' => db'
        | .error _ => db) = db
  have hrun : runEvent (Event.query qd) db = Except.error (409, "Duplicate entry") := by
    simp only [runEvent, herr, Except.map]
  rw [hrun]

/-! ### Concrete store states and requests used to witness the theorems -/

def wListing : Listing :=
  { listing_id := 7, title := "Sea View Villa"
    brochure_url := some "https://cdn.example.com/bro7.pdf" }

def wListingNoBro : Listing :=
  { listing_id := 8, title := "Plot A", brochure_url := none }

def wLead : Lead :=
  { user_id := 3, phone := "9123456780", name := some "Asha Rao"
    email := some "asha@example.com", lead_source := some "Website"
    lead_status := "Converted", lead_temperature := "Warm"
    last_contact_date := none, next_action_date := none }

def wdb : DB :=
  { users := [wLead], listings := [wListing, wListingNoBro], queries := []
    call_logs := [], next_id := 10 }

def wQd : QueryCreate :=
  { name := "Ravi Kumar", phone := "9998887776", query_source := "Website"
    listing_id := none, email := none, message := some "interested"
    budget := none, property_type := none, user_type := none }

def wBroReq : BrochureRequest :=
  { name := "Asha Rao", phone := "9123456780", listing_id := 7, email := none }

def wBroReqNoBro : BrochureRequest :=
  { name := "Asha Rao", phone := "9123456780", listing_id := 8, email := none }

def wLog : CallLogCreate :=
  { phone := "9123456780", interaction_type := "Site Visit", notes := "site visit planned"
    next_action := none, next_follow_up_date := some 20240601, site_visit_status := none }

def wLogMissing : CallLogCreate :=
  { phone := "9000000001", interaction_type := "Call", notes := "ping"
    next_action := none, next_follow_up_date := none, site_visit_status := none }

def wQdMissingListing : QueryCreate := { wQd with listing_id := some 99 }

def wdb1 : DB := applyEvent (Event.query wQd) wdb

def wdb2 : DB := applyEvent (Event.query wQd) wdb1

def wdbB : DB := applyEvent (Event.brochure wBroReq) wdb

def wdbL : DB := applyEvent (Event.activity wLog 5 111) wdb

/-- Witness for C1: the same query submitted twice against a concrete
store creates one lead on the first call and reuses it on the second. -/
theorem reconcile_idempotent_dedup_witness :
    (Event.query wQd).selfServe = true ∧ (Event.query wQd).phone = (Event.query wQd).phone ∧
    runEvent (Event.query wQd) wdb = Except.ok wdb1 ∧
    runEvent (Event.query wQd) wdb1 = Except.ok wdb2 ∧
    (wdb2.users.length = wdb1.users.length ∧
      ∃ q1 q2, wdb1.queries = wdb.queries ++ [q1] ∧ wdb2.queries = wdb1.queries ++ [q2] ∧
        q2.user_id = q1.user_id) :=
  ⟨rfl, rfl, rfl, rfl,
    reconcile_idempotent_dedup (Event.query wQd) (Event.query wQd) wdb wdb1 wdb2
      rfl rfl rfl rfl rfl⟩

/-- Witness for C2: a brochure download by an existing lead leaves that
lead's `lead_source` untouched. -/
theorem lead_source_first_touch_immutable_witness :
    runEvent (Event.brochure wBroReq) wdb = Except.ok wdbB ∧
    0 < wdb.users.length ∧ 0 < wdbB.users.length ∧
    (wdbB.users.get ⟨0, by decide⟩).lead_source = (wdb.users.get ⟨0, by decide⟩).lead_source :=
  ⟨rfl, by decide, by decide,
    lead_source_first_touch_immutable (Event.brochure wBroReq) wdb wdbB rfl 0
      (by decide) (by decide)⟩

/-- Witness for C3: a brochure download for a Converted lead leaves it
Converted. -/
theorem status_frozen_outside_new_witness :
    (Event.brochure wBroReq).selfServe = true ∧
    runEvent (Event.brochure wBroReq) wdb = Except.ok wdbB ∧
    (wdb.users.get ⟨0, by decide⟩).lead_status ≠ "New" ∧
    (wdbB.users.get ⟨0, by decide⟩).lead_status = (wdb.users.get ⟨0, by decide⟩).lead_status :=
  ⟨rfl, rfl, by decide,
    status_frozen_outside_new (Event.brochure wBroReq) wdb wdbB rfl rfl 0
      (by decide) (by decide) (by decide)⟩

/-- Witness for C4: a staff activity log never lowers the temperature of
the touched lead. -/
theorem temperature_monotone_witness :
    runEvent (Event.activity wLog 5 111) wdb = Except.ok wdbL ∧
    tempRank (wdb.users.get ⟨0, by decide⟩).lead_temperature ≤
      tempRank (wdbL.users.get ⟨0, by decide⟩).lead_temperature :=
  ⟨rfl,
    temperature_monotone (Event.activity wLog 5 111) wdb wdbL rfl 0 (by decide) (by decide)⟩

/-- Witness for the C5 amended theorem at the Cold/New lead. -/
theorem querySubmitted_preserves_status_and_temperature_witness :
    findUserByPhone coldDB.users coldQuery.phone = some coldLead ∧
    coldLead.lead_status = "New" ∧
    listingFKOk coldDB coldQuery.listing_id = true ∧
    (∃ db' r, create_query coldQuery coldDB = Except.ok (db', r) ∧
      ∃ u2, findUserByPhone db'.users coldQuery.phone = some u2 ∧
        u2.lead_status = "New" ∧ u2.lead_temperature = coldLead.lead_temperature) :=
  ⟨by decide, rfl, rfl,
    querySubmitted_preserves_status_and_temperature coldQuery coldDB coldLead
      (by decide) rfl rfl⟩

/-- Witness for C6: logging an activity for an unknown phone fails with a
404 and leaves the store unchanged. -/
theorem logActivity_unknown_phone_rejected_witness :
    findUserByPhone wdb.users wLogMissing.phone = none ∧
    (create_log wLogMissing 5 111 wdb =
      Except.error (404, "User with this phone not found. Create lead first.") ∧
     applyEvent (Event.activity wLogMissing 5 111) wdb = wdb) :=
  ⟨by decide, logActivity_unknown_phone_rejected wLogMissing 5 111 wdb (by decide)⟩

/-- Witness for C7: a Site Visit activity against the Converted lead. -/
theorem logActivity_effects_witness :
    findUserByPhone wdb.users wLog.phone = some wLead ∧
    (∃ db' log, create_log wLog 5 111 wdb = Except.ok (db', log) ∧
      db'.call_logs = wdb.call_logs ++ [log] ∧ log.caller_id = 5 ∧
      ∃ u2, findUserByPhone db'.users wLog.phone = some u2 ∧
        u2.last_contact_date = some 111 ∧
        u2.next_action_date = (match wLog.next_follow_up_date with
          | some d => some d
          | none => wLead.next_action_date) ∧
        u2.lead_status = (if wLog.interaction_type = "Site Visit" ∧ wLead.lead_status = "New"
          then "Site Visit Scheduled"
          else if wLead.lead_status = "New" then "Contacted" else wLead.lead_status)) :=
  ⟨by decide, logActivity_effects wLog 5 111 wdb wLead (by decide)⟩

/-- Witness for C8: a brochure request for the listing without a brochure
url fails with 404 and changes nothing. -/
theorem brochure_unavailable_read_only_failure_witness :
    (findListing wdb wBroReqNoBro.listing_id = none ∨
      ∃ l, findListing wdb wBroReqNoBro.listing_id = some l ∧
        (l.brochure_url = none ∨ l.brochure_url = some "")) ∧
    ((∃ msg, download_brochure wBroReqNoBro wdb = Except.error (404, msg)) ∧
     applyEvent (Event.brochure wBroReqNoBro) wdb = wdb) :=
  ⟨Or.inr ⟨wListingNoBro, by decide, Or.inl rfl⟩,
    brochure_unavailable_read_only_failure wBroReqNoBro wdb
      (Or.inr ⟨wListingNoBro, by decide, Or.inl rfl⟩)⟩

/-- Witness for the C9 amended theorem at a concrete hyphenated phone. -/
theorem phone_validation_cleaned_characterization_witness :
    (∀ c, validate_phone "98765-43210" = Except.ok c → c = clean_phone "98765-43210") ∧
    ((∃ c, validate_phone "98765-43210" = Except.ok c) ↔
      (pyIsDigit (clean_phone "98765-43210") = true ∧
        10 ≤ (clean_phone "98765-43210").length ∧
        (clean_phone "98765-43210").length ≤ 15)) :=
  phone_validation_cleaned_characterization "98765-43210"

/-- C10 (counterexample).  The claim says a query naming an absent listing
still succeeds and records the Interaction.  At the concrete store `wdb`
(whose listings are ids 7 and 8) a query naming listing 99 fails the
foreign-key check at commit: `create_query` returns the 409 "Duplicate
entry" of the handler's IntegrityError branch, not a success, and the
rolled-back store records no interaction. -/
theorem query_unknown_listing_success_counterexample :
    wQdMissingListing.listing_id = some 99 ∧ findListing wdb 99 = none ∧
    create_query wQdMissingListing wdb = Except.error (409, "Duplicate entry") ∧
    (applyEvent (Event.query wQdMissingListing) wdb).queries = wdb.queries ∧
    (applyEvent (Event.query wQdMissingListing) wdb).users = wdb.users :=
  ⟨rfl, by decide, by rfl, by rfl, by rfl⟩

/-- Witness for the C10 amended theorem: the query naming the absent
listing 99 against the concrete store. -/
theorem query_unknown_listing_fk_conflict_witness :
    wQdMissingListing.listing_id = some 99 ∧ findListing wdb 99 = none ∧
    (resolveListingTitle wdb wQdMissingListing.listing_id = "General Inquiry" ∧
     create_query wQdMissingListing wdb = Except.error (409, "Duplicate entry") ∧
     applyEvent (Event.query wQdMissingListing) wdb = wdb) :=
  ⟨rfl, by decide,
    query_unknown_listing_fk_conflict wQdMissingListing 99 wdb rfl (by decide)⟩

end CRM
